import Mathlib

/-!
Verification of the sales-analytics ETL pipeline core.

The development shallowly embeds the three core modules:
* the quality-rule engine (quality_checks.py: DataQualityManager),
* the transformation engine (transformations.py: DataTransformer),
* the pipeline orchestrator (pipeline.py: SalesDataPipeline.run).

DataFrames handled generically (by dynamic column lookup) are modelled as
column-oriented tables whose columns carry a dtype tag and a list of
nullable cells; entity-specific transforms are modelled row-wise on typed
records. Wall-clock timestamps are passed as explicit parameters; the
transformation timestamp column (a pure wall-clock stamp no property reads)
is omitted from the row records.
-/

/-! ## Generic table model for the quality-rule engine -/

/-- A scalar cell value: a number, a string, or a datetime
(represented by an ordinal so only its order matters). -/
inductive Val where
  | vNum (q : Rat)
  | vStr (s : String)
  | vDate (t : Int)
deriving DecidableEq, Repr

/-- A cell is nullable; `none` models a missing value (NaN/NaT/None). -/
abbrev Cell := Option Val

/-- The dtype tag a pandas column carries. -/
inductive Dtype where
  | dtInt
  | dtFloat
  | dtBool
  | dtObject
  | dtDatetime
deriving DecidableEq, Repr

/-- pd.api.types.is_datetime64_any_dtype on a column dtype. -/
def isDatetimeAnyDtype : Dtype → Bool
  | .dtDatetime => true
  | _ => false

/-- pd.api.types.is_numeric_dtype on a column dtype (int, float and bool count). -/
def isNumericDtype : Dtype → Bool
  | .dtInt => true
  | .dtFloat => true
  | .dtBool => true
  | _ => false

/-- A named dataframe column. -/
structure Column where
  name : String
  dtype : Dtype
  cells : List Cell
deriving DecidableEq, Repr

/-- A dataframe: a list of named columns. -/
structure Table where
  cols : List Column
deriving DecidableEq, Repr

/-- Look a column up by name (df[c]). -/
def findCol (df : Table) (c : String) : Option Column :=
  df.cols.find? (fun col => col.name == c)

/-- Column-presence test (c in df.columns). -/
def hasCol (df : Table) (c : String) : Bool :=
  (findCol df c).isSome

/-! ## Quality-rule engine (quality_checks.py) -/

/-- The details payload of one quality check, mirroring the per-check dict. -/
inductive Details where
  | missingCols (l : List String)
  | nullCounts (l : List (String × Nat))
  | outOfRange (l : List (String × Nat × Nat))
  | dupCounts (l : List (String × Nat))
  | issues (l : List String)
deriving DecidableEq, Repr

/-- One quality-check result: a passed flag and a details payload. -/
structure CheckResult where
  passed : Bool
  details : Details
deriving DecidableEq, Repr

/-- A numeric-range rule; a missing bound means unbounded (−∞ / +∞). -/
structure NumRange where
  lo : Option Rat
  hi : Option Rat
deriving DecidableEq, Repr

/-- The declarative rule bundle for one entity type. -/
structure RuleSet where
  required_columns : List String
  not_null_columns : List String
  numeric_ranges : List (String × NumRange)
  unique_columns : List String
deriving DecidableEq, Repr

/-- DataQualityManager.rules from __init__ (customers has no numeric_ranges key,
so rules.get gives the empty mapping there). -/
def rulesFor : String → Option RuleSet
  | "sales" => some
      { required_columns := ["sale_id", "product_id", "customer_id", "quantity", "amount", "sale_date"]
        not_null_columns := ["sale_id", "product_id", "customer_id", "sale_date"]
        numeric_ranges := [("quantity", ⟨some 0, some 1000⟩), ("amount", ⟨some 0, some 1000000⟩)]
        unique_columns := ["sale_id"] }
  | "products" => some
      { required_columns := ["product_id", "product_name", "category", "price"]
        not_null_columns := ["product_id", "product_name"]
        numeric_ranges := [("price", ⟨some 0, some 10000⟩)]
        unique_columns := ["product_id"] }
  | "customers" => some
      { required_columns := ["customer_id", "customer_name", "email", "region"]
        not_null_columns := ["customer_id", "customer_name"]
        numeric_ranges := []
        unique_columns := ["customer_id", "email"] }
  | _ => none

/-- _check_required_columns: list the configured names absent from the table;
passed iff none is missing. -/
def check_required_columns (df : Table) (required : List String) : CheckResult :=
  let missing := required.filter (fun c => !hasCol df c)
  ⟨missing.isEmpty, .missingCols missing⟩

/-- df[col].isnull().sum(). -/
def nullCount (cells : List Cell) : Nat :=
  cells.countP (fun c => c.isNone)

/-- _check_not_null: per configured column present in the table, record its null
count when positive; absent columns are skipped; passed iff nothing recorded. -/
def check_not_null (df : Table) (cols : List String) : CheckResult :=
  let null_counts := cols.filterMap (fun c =>
    match findCol df c with
    | none => none
    | some col =>
        let n := nullCount col.cells
        if n > 0 then some (c, n) else none)
  ⟨null_counts.isEmpty, .nullCounts null_counts⟩

/-- (df[col] < m).sum(): cells strictly below the bound; a missing bound is −∞,
and null cells compare false. Rule columns hold numbers, so only numeric cells
can satisfy the comparison. -/
def belowCount (cells : List Cell) : Option Rat → Nat
  | none => 0
  | some m => cells.countP (fun c =>
      match c with
      | some (.vNum q) => decide (q < m)
      | _ => false)

/-- (df[col] > m).sum(): cells strictly above the bound; a missing bound is +∞. -/
def aboveCount (cells : List Cell) : Option Rat → Nat
  | none => 0
  | some m => cells.countP (fun c =>
      match c with
      | some (.vNum q) => decide (m < q)
      | _ => false)

/-- _check_numeric_ranges: per configured column present in the table, record
below/above counts when either is positive; passed iff nothing recorded. -/
def check_numeric_ranges (df : Table) (ranges : List (String × NumRange)) : CheckResult :=
  let out_of_range := ranges.filterMap (fun cr =>
    match findCol df cr.1 with
    | none => none
    | some col =>
        let b := belowCount col.cells cr.2.lo
        let a := aboveCount col.cells cr.2.hi
        if b > 0 || a > 0 then some (cr.1, b, a) else none)
  ⟨out_of_range.isEmpty, .outOfRange out_of_range⟩

/-- df[col].duplicated().sum() with an explicit seen set: a position counts when
its value already occurred earlier (pandas treats missing values as equal). -/
def dupCountAux (seen : List Cell) : List Cell → Nat
  | [] => 0
  | c :: cs => (if c ∈ seen then 1 else 0) + dupCountAux (c :: seen) cs

/-- df[col].duplicated().sum(). -/
def dupCount (cells : List Cell) : Nat :=
  dupCountAux [] cells

/-- _check_unique_columns: per configured column present in the table, record its
duplicate count when positive; passed iff nothing recorded. -/
def check_unique_columns (df : Table) (cols : List String) : CheckResult :=
  let duplicates := cols.filterMap (fun c =>
    match findCol df c with
    | none => none
    | some col =>
        let n := dupCount col.cells
        if n > 0 then some (c, n) else none)
  ⟨duplicates.isEmpty, .dupCounts duplicates⟩

/-- _check_data_types: entity-specific dtype checks; only sales has any. -/
def check_data_types (df : Table) (table_name : String) : CheckResult :=
  let issues :=
    if table_name == "sales" then
      (match findCol df "sale_date" with
       | some col => if !isDatetimeAnyDtype col.dtype then ["sale_date should be datetime type"] else []
       | none => []) ++
      (["quantity", "amount", "price_per_unit"].filterMap (fun c =>
        match findCol df c with
        | some col => if !isNumericDtype col.dtype then some (c ++ " should be numeric type") else none
        | none => none))
    else []
  ⟨issues.isEmpty, .issues issues⟩

/-- df[quantity] > 0 elementwise (false on null and non-numeric cells). -/
def cellPos (c : Cell) : Bool :=
  match c with
  | some (.vNum q) => decide (0 < q)
  | _ => false

/-- df[amount] == 0 elementwise (false on null and non-numeric cells). -/
def cellZero (c : Cell) : Bool :=
  match c with
  | some (.vNum q) => decide (q = 0)
  | _ => false

/-- df[email].str.contains with na=False: true only for string cells holding
the character; null cells give false. -/
def cellContainsAt (c : Cell) : Bool :=
  match c with
  | some (.vStr s) => s.data.contains '@'
  | _ => false

/-- _run_custom_checks: entity-specific business checks; `now` is the explicit
evaluation instant standing for pd.Timestamp.now(). -/
def run_custom_checks (df : Table) (table_name : String) (now : Int) : CheckResult :=
  let issues :=
    if table_name == "sales" then
      (match findCol df "quantity", findCol df "amount" with
       | some qc, some ac =>
           let n := (qc.cells.zip ac.cells).countP (fun p => cellPos p.1 && cellZero p.2)
           if n > 0 then [toString n ++ " records have quantity but zero amount"] else []
       | _, _ => []) ++
      (match findCol df "sale_date" with
       | some col =>
           let n := col.cells.countP (fun c =>
             match c with
             | some (.vDate t) => decide (now < t)
             | _ => false)
           if n > 0 then [toString n ++ " records have future sale dates"] else []
       | none => [])
    else if table_name == "products" then
      match findCol df "price" with
      | some col =>
          let n := col.cells.countP (fun c =>
            match c with
            | some (.vNum q) => decide (q ≤ 0)
            | _ => false)
          if n > 0 then [toString n ++ " products have zero or negative prices"] else []
      | none => []
    else if table_name == "customers" then
      match findCol df "email" with
      | some col =>
          let n := col.cells.countP (fun c => !cellContainsAt c)
          if n > 0 then [toString n ++ " customers have invalid email formats"] else []
      | none => []
    else []
  ⟨issues.isEmpty, .issues issues⟩

/-- DataQualityManager.validate_data: for a known entity type, run the six
checks and return them keyed by check type; otherwise return the empty result
mapping. -/
def validate_data (df : Table) (table_name : String) (now : Int) : List (String × CheckResult) :=
  match rulesFor table_name with
  | none => []
  | some rules =>
      [ ("required_columns", check_required_columns df rules.required_columns)
      , ("not_null_columns", check_not_null df rules.not_null_columns)
      , ("numeric_ranges", check_numeric_ranges df rules.numeric_ranges)
      , ("unique_columns", check_unique_columns df rules.unique_columns)
      , ("data_types", check_data_types df table_name)
      , ("custom_checks", run_custom_checks df table_name now) ]

/-! ## Transformation engine (transformations.py) -/

/-- A datetime value as the entity transforms consume it: calendar fields plus
the weekday (pandas dayofweek convention, 0 = Monday). -/
structure Date where
  year : Int
  month : Nat
  day : Nat
  dow : Nat
deriving DecidableEq, Repr

/-- dt.quarter derived from the month. -/
def quarterOf (month : Nat) : Nat := (month + 2) / 3

/-- Integer date key: the date formatted as YYYYMMDD. -/
def dateKey (d : Date) : Int :=
  d.year * 10000 + (d.month : Int) * 100 + (d.day : Int)

/-- Series.round(2): round to two decimal places. -/
def round2 (x : Rat) : Rat :=
  ((⌊x * 100 + 1 / 2⌋ : Int) : Rat) / 100

/-- Python str.strip(): drop leading and trailing whitespace. -/
def pyStrip (s : String) : String :=
  ⟨((s.data.dropWhile Char.isWhitespace).reverse.dropWhile Char.isWhitespace).reverse⟩

/-- Python str.lower(). -/
def pyLower (s : String) : String :=
  ⟨s.data.map Char.toLower⟩

/-- Python str.upper(). -/
def pyUpper (s : String) : String :=
  ⟨s.data.map Char.toUpper⟩

/-- Python str.split(sep) on a single separator character: the pieces between
occurrences, with empty pieces kept. -/
def pySplitAux (sep : Char) : List Char → List Char → List (List Char)
  | [], acc => [acc.reverse]
  | c :: cs, acc =>
      if c = sep then acc.reverse :: pySplitAux sep cs []
      else pySplitAux sep cs (c :: acc)

/-- Python str.split(sep) wrapped on strings. -/
def pySplit (sep : Char) (s : String) : List String :=
  (pySplitAux sep s.data []).map (fun l => ⟨l⟩)

/-- str.title(): upper-case the first letter of each alphabetic run,
lower-case the rest. -/
def titleCase (s : String) : String :=
  ⟨(s.data.foldl
    (fun acc c =>
      if c.isAlpha then
        (acc.1 ++ [if acc.2 then c.toLower else c.toUpper], true)
      else
        (acc.1 ++ [c], false))
    ([], false)).1⟩

/-- pd.cut with right-closed bins: given consecutive edges e1 < x ≤ e2 assign
the matching label; values on no bin (e.g. at or below the first edge) get a
missing label. `none` as an edge stands for an infinite edge of float inf. -/
def ltEdge : Option Rat → Rat → Prop
  | none, _ => False
  | some v, x => v < x

/-- x ≤ upper edge, where an infinite upper edge accepts everything. -/
def leEdge : Rat → Option Rat → Prop
  | _, none => True
  | x, some v => x ≤ v

instance : (e : Option Rat) → (x : Rat) → Decidable (ltEdge e x)
  | none, _ => isFalse id
  | some v, x => inferInstanceAs (Decidable (v < x))

instance : (x : Rat) → (e : Option Rat) → Decidable (leEdge x e)
  | _, none => isTrue trivial
  | x, some v => inferInstanceAs (Decidable (x ≤ v))

/-- pd.cut(x, bins, labels) on one scalar. -/
def pdCut (x : Rat) : List (Option Rat) → List String → Option String
  | e1 :: e2 :: es, lab :: labs =>
      if ltEdge e1 x ∧ leEdge x e2 then some lab else pdCut x (e2 :: es) labs
  | _, _ => none

/-- Price tier bucketing: pd.cut(price, [0, 50, 200, 500, inf],
[Budget, Standard, Premium, Luxury]). -/
def priceTier (p : Rat) : Option String :=
  pdCut p [some 0, some 50, some 200, some 500, none]
    ["Budget", "Standard", "Premium", "Luxury"]

/-- Revenue bucketing: pd.cut(amount, [0, 100, 500, 1000, inf],
[Small, Medium, Large, Enterprise]). -/
def revenueCategory (a : Rat) : Option String :=
  pdCut a [some 0, some 100, some 500, some 1000, none]
    ["Small", "Medium", "Large", "Enterprise"]

/-- A raw sales row; quantity and amount are nullable, sale_date is the value
pd.to_datetime produces for it. -/
structure SalesRow where
  sale_id : Int
  product_id : Int
  customer_id : Int
  quantity : Option Rat
  amount : Option Rat
  sale_date : Date
deriving DecidableEq, Repr

/-- An enriched sales row after transform_sales_data; quantity and amount are
non-null after fillna(0). price_per_unit is none when undefined (a null input
or a zero quantity, where pandas leaves NaN or an infinity no rule reads). -/
structure SalesRowT where
  sale_id : Int
  product_id : Int
  customer_id : Int
  quantity : Rat
  amount : Rat
  sale_date : Date
  year : Int
  month : Nat
  quarter : Nat
  day_of_week : Nat
  is_weekend : Bool
  price_per_unit : Option Rat
deriving DecidableEq, Repr

/-- transform_sales_data on one row: derive the calendar columns, compute
price_per_unit from the original values, round amount and price_per_unit to
two decimals, then fill missing quantity and amount with 0. -/
def transformSalesRow (r : SalesRow) : SalesRowT :=
  { sale_id := r.sale_id
    product_id := r.product_id
    customer_id := r.customer_id
    sale_date := r.sale_date
    year := r.sale_date.year
    month := r.sale_date.month
    quarter := quarterOf r.sale_date.month
    day_of_week := r.sale_date.dow
    is_weekend := r.sale_date.dow == 5 || r.sale_date.dow == 6
    price_per_unit :=
      match r.amount, r.quantity with
      | some a, some q => if q = 0 then none else some (round2 (a / q))
      | _, _ => none
    amount := match r.amount with | some a => round2 a | none => 0
    quantity := r.quantity.getD 0 }

/-- DataTransformer.transform_sales_data, columnwise operations as a row map. -/
def transform_sales_data (rows : List SalesRow) : List SalesRowT :=
  rows.map transformSalesRow

/-- A raw product row; text fields and price are nullable. -/
structure ProductRow where
  product_id : Int
  product_name : Option String
  category : Option String
  price : Option Rat
deriving DecidableEq, Repr

/-- An enriched product row after transform_product_data. -/
structure ProductRowT where
  product_id : Int
  product_name : Option String
  category : String
  price : Option Rat
  price_tier : Option String
deriving DecidableEq, Repr

/-- transform_product_data on one row: standardize the text fields, default a
missing category to UNCATEGORIZED, and bucket the price (pd.cut leaves a
missing tier on a missing price). -/
def transformProductRow (r : ProductRow) : ProductRowT :=
  { product_id := r.product_id
    product_name := r.product_name.map (fun s => titleCase (pyStrip s))
    category :=
      match r.category with
      | some c => pyUpper (pyStrip c)
      | none => "UNCATEGORIZED"
    price := r.price
    price_tier :=
      match r.price with
      | some p => priceTier p
      | none => none }

/-- DataTransformer.transform_product_data, columnwise operations as a row map. -/
def transform_product_data (rows : List ProductRow) : List ProductRowT :=
  rows.map transformProductRow

/-- A raw customer row; text fields are nullable. -/
structure CustomerRow where
  customer_id : Int
  customer_name : Option String
  email : Option String
  region : Option String
deriving DecidableEq, Repr

/-- An enriched customer row after transform_customer_data. -/
structure CustomerRowT where
  customer_id : Int
  customer_name : Option String
  email : Option String
  region : String
  email_domain : Option String
  customer_segment : String
deriving DecidableEq, Repr

/-- email.str.split at the at sign, then .str[1]: the piece after the first
at sign, missing when the email has no at sign or is itself missing. -/
def emailDomain : Option String → Option String
  | none => none
  | some s => (pySplit '@' s)[1]?

/-- The corporate domain list of _categorize_customer. -/
def corporate_domains : List String := ["company.com", "business.com", "corp.com"]

/-- The personal-provider domain list of _categorize_customer. -/
def personal_domains : List String := ["gmail.com", "yahoo.com", "hotmail.com", "outlook.com"]

/-- _categorize_customer. The guard `if not email_domain` fires only on an
empty string: a missing domain reaches the function as float NaN, which is
truthy in Python, so it falls through the guard, fails both list memberships
and lands on Other. -/
def categorize_customer : Option String → String
  | none => "Other"
  | some s =>
      if s.isEmpty then "Unknown"
      else if s ∈ corporate_domains then "Corporate"
      else if s ∈ personal_domains then "Personal"
      else "Other"

/-- transform_customer_data on one row: standardize the text fields, derive the
email domain and the customer segment, default a missing region to UNKNOWN. -/
def transformCustomerRow (r : CustomerRow) : CustomerRowT :=
  let email := r.email.map (fun s => pyLower (pyStrip s))
  let dom := emailDomain email
  { customer_id := r.customer_id
    customer_name := r.customer_name.map (fun s => titleCase (pyStrip s))
    email := email
    region :=
      match r.region with
      | some s => pyUpper (pyStrip s)
      | none => "UNKNOWN"
    email_domain := dom
    customer_segment := categorize_customer dom }

/-- DataTransformer.transform_customer_data, columnwise operations as a row map. -/
def transform_customer_data (rows : List CustomerRow) : List CustomerRowT :=
  rows.map transformCustomerRow

/-- pandas left merge on a single key: each left row pairs with every matching
right row in order, or survives alone with missing joined fields when no right
row matches. -/
def leftMerge {α β γ κ : Type} [DecidableEq κ] (ls : List α) (rs : List β)
    (keyL : α → κ) (keyR : β → κ) (combine : α → β → γ) (noMatch : α → γ) : List γ :=
  ls.flatMap (fun l =>
    match rs.filter (fun r => decide (keyR r = keyL l)) with
    | [] => [noMatch l]
    | ms => ms.map (combine l))

/-- A sales row joined with the product projection. -/
structure SalesProd where
  s : SalesRowT
  category : Option String
  price_tier : Option String
deriving DecidableEq, Repr

/-- A sales row joined with both dimension projections. -/
structure SalesProdCust where
  s : SalesRowT
  category : Option String
  price_tier : Option String
  region : Option String
  customer_segment : Option String
deriving DecidableEq, Repr

/-- A fact-table row. -/
structure FactRow where
  s : SalesRowT
  category : Option String
  price_tier : Option String
  region : Option String
  customer_segment : Option String
  revenue_category : Option String
  date_key : Int
deriving DecidableEq, Repr

/-- DataTransformer.create_fact_table: left-join enriched sales with the
product projection (product_id, category, price_tier) and the customer
projection (customer_id, region, customer_segment), then derive
revenue_category from amount and the integer date key from sale_date. -/
def create_fact_table (sales : List SalesRowT) (products : List ProductRowT)
    (customers : List CustomerRowT) : List FactRow :=
  let m1 : List SalesProd :=
    leftMerge sales products (fun s => s.product_id) (fun p => p.product_id)
      (fun srow p => ⟨srow, some p.category, p.price_tier⟩)
      (fun srow => ⟨srow, none, none⟩)
  let m2 : List SalesProdCust :=
    leftMerge m1 customers (fun x => x.s.customer_id) (fun c => c.customer_id)
      (fun x c => ⟨x.s, x.category, x.price_tier, some c.region, some c.customer_segment⟩)
      (fun x => ⟨x.s, x.category, x.price_tier, none, none⟩)
  m2.map (fun x =>
    ⟨x.s, x.category, x.price_tier, x.region, x.customer_segment,
      revenueCategory x.s.amount, dateKey x.s.sale_date⟩)

/-! ## Pipeline orchestrator (pipeline.py: SalesDataPipeline.run) -/

/-- One observable action of run() against the run ledger: opening the run
record, entering a stage, or the single closing update of _end_pipeline_run
(status, records_processed, error_message). -/
inductive RunEvent where
  | start (status : String)
  | stage (name : String)
  | finalize (status : String) (records : Nat) (error : Option String)
deriving DecidableEq, Repr

/-- SalesDataPipeline.run: open the run record, execute extract, transform and
load in sequence inside one try block; the first exception skips the rest and
is finalized as FAILED with 0 records and the captured message, returning
false; full success finalizes COMPLETED with the loaded row count, returning
true. Stages are modelled as fallible computations whose errors carry the
exception text. -/
def runPipeline {E T : Type} (extract : Except String E)
    (transform : E → Except String T) (load : T → Except String Nat) :
    Bool × List RunEvent :=
  match extract with
  | .error e => (false, [.start "STARTED", .stage "extract", .finalize "FAILED" 0 (some e)])
  | .ok d =>
      match transform d with
      | .error e =>
          (false, [.start "STARTED", .stage "extract", .stage "transform",
                   .finalize "FAILED" 0 (some e)])
      | .ok t =>
          match load t with
          | .error e =>
              (false, [.start "STARTED", .stage "extract", .stage "transform", .stage "load",
                       .finalize "FAILED" 0 (some e)])
          | .ok n =>
              (true, [.start "STARTED", .stage "extract", .stage "transform", .stage "load",
                      .finalize "COMPLETED" n none])

/-- Number of closing updates of the run record in an event trace. -/
def countFinalize (evs : List RunEvent) : Nat :=
  evs.countP (fun e =>
    match e with
    | .finalize _ _ _ => true
    | _ => false)

/-! ## Helper lemmas -/

lemma card_insert_eq_card_erase {α : Type} [DecidableEq α] (c : α) (S : Finset α) :
    (insert c S).card = (S.erase c).card + 1 := by
  by_cases h : c ∈ S
  · rw [Finset.insert_eq_self.mpr h, Finset.card_erase_of_mem h]
    have hpos : 0 < S.card := Finset.card_pos.mpr ⟨c, h⟩
    omega
  · rw [Finset.card_insert_of_not_mem h, Finset.erase_eq_of_not_mem h]

lemma dupCountAux_add_card (l : List Cell) :
    ∀ seen : List Cell,
      dupCountAux seen l + (l.toFinset \ seen.toFinset).card = l.length := by
  induction l with
  | nil => intro seen; simp [dupCountAux]
  | cons c cs ih =>
      intro seen
      by_cases h : c ∈ seen
      · have hmem : c ∈ seen.toFinset := List.mem_toFinset.mpr h
        have hins : (c :: seen).toFinset = seen.toFinset := by
          simp [List.toFinset_cons, Finset.insert_eq_self.mpr hmem]
        have := ih (c :: seen)
        rw [hins] at this
        simp only [dupCountAux, if_pos h, List.toFinset_cons,
          Finset.insert_sdiff_of_mem _ hmem, List.length_cons]
        omega
      · have hmem : c ∉ seen.toFinset := fun hc => h (List.mem_toFinset.mp hc)
        have := ih (c :: seen)
        rw [List.toFinset_cons, Finset.sdiff_insert] at this
        simp only [dupCountAux, if_neg h, List.toFinset_cons,
          Finset.insert_sdiff_of_not_mem _ hmem, List.length_cons,
          card_insert_eq_card_erase]
        omega

/-- duplicated().sum() counts one per row beyond the first occurrence of each
distinct value: duplicate count plus the number of distinct values is the
column length. -/
lemma dupCount_add_card (cells : List Cell) :
    dupCount cells + cells.toFinset.card = cells.length := by
  have := dupCountAux_add_card cells []
  simpa [dupCount] using this

lemma filter_key_eq_nil {β κ : Type} [DecidableEq κ] (rs : List β) (keyR : β → κ)
    (k : κ) (h : k ∉ rs.map keyR) :
    rs.filter (fun r => decide (keyR r = k)) = [] := by
  rw [List.filter_eq_nil_iff]
  intro r hr hk
  exact h (List.mem_map.mpr ⟨r, hr, of_decide_eq_true hk⟩)

lemma filter_key_of_nodup {β κ : Type} [DecidableEq κ] (rs : List β) (keyR : β → κ)
    (hnd : (rs.map keyR).Nodup) (k : κ) :
    rs.filter (fun r => decide (keyR r = k)) =
      (rs.find? (fun r => decide (keyR r = k))).toList := by
  induction rs with
  | nil => rfl
  | cons r rs ih =>
      rw [List.map_cons, List.nodup_cons] at hnd
      by_cases hk : keyR r = k
      · subst hk
        rw [List.filter_cons_of_pos (by simp), List.find?_cons_of_pos _ (by simp),
          filter_key_eq_nil rs keyR _ hnd.1]
        rfl
      · rw [List.filter_cons_of_neg (by simpa using hk),
          List.find?_cons_of_neg _ (by simpa using hk)]
        exact ih hnd.2

/-- With pairwise-distinct right keys, a left merge is a per-row map: each left
row yields exactly one output, joined to the unique matching right row when
one exists. -/
lemma leftMerge_of_nodup {α β γ κ : Type} [DecidableEq κ] (ls : List α) (rs : List β)
    (keyL : α → κ) (keyR : β → κ) (combine : α → β → γ) (noMatch : α → γ)
    (hnd : (rs.map keyR).Nodup) :
    leftMerge ls rs keyL keyR combine noMatch =
      ls.map (fun l =>
        (rs.find? (fun r => decide (keyR r = keyL l))).elim (noMatch l) (combine l)) := by
  unfold leftMerge
  induction ls with
  | nil => rfl
  | cons l ls ih =>
      rw [List.flatMap_cons, ih, List.map_cons]
      rw [filter_key_of_nodup rs keyR hnd (keyL l)]
      cases hf : rs.find? (fun r => decide (keyR r = keyL l)) <;> simp [hf]

lemma priceTier_of_nonpos {p : Rat} (h : p ≤ 0) : priceTier p = none := by
  simp only [priceTier, pdCut, ltEdge, leEdge]
  rw [if_neg (by rintro ⟨ha, _⟩; linarith), if_neg (by rintro ⟨ha, _⟩; linarith),
    if_neg (by rintro ⟨ha, _⟩; linarith), if_neg (by rintro ⟨ha, _⟩; linarith)]

lemma priceTier_of_budget {p : Rat} (h1 : 0 < p) (h2 : p ≤ 50) :
    priceTier p = some "Budget" := by
  simp only [priceTier, pdCut, ltEdge, leEdge]
  rw [if_pos ⟨h1, h2⟩]

lemma priceTier_of_standard {p : Rat} (h1 : 50 < p) (h2 : p ≤ 200) :
    priceTier p = some "Standard" := by
  simp only [priceTier, pdCut, ltEdge, leEdge]
  rw [if_neg (by rintro ⟨_, hb⟩; linarith), if_pos ⟨h1, h2⟩]

lemma priceTier_of_premium {p : Rat} (h1 : 200 < p) (h2 : p ≤ 500) :
    priceTier p = some "Premium" := by
  simp only [priceTier, pdCut, ltEdge, leEdge]
  rw [if_neg (by rintro ⟨_, hb⟩; linarith), if_neg (by rintro ⟨_, hb⟩; linarith),
    if_pos ⟨h1, h2⟩]

lemma priceTier_of_luxury {p : Rat} (h1 : 500 < p) :
    priceTier p = some "Luxury" := by
  simp only [priceTier, pdCut, ltEdge, leEdge]
  rw [if_neg (by rintro ⟨_, hb⟩; linarith), if_neg (by rintro ⟨_, hb⟩; linarith),
    if_neg (by rintro ⟨_, hb⟩; linarith), if_pos ⟨h1, trivial⟩]

lemma priceTier_eq_budget (p : Rat) : priceTier p = some "Budget" ↔ 0 < p ∧ p ≤ 50 := by
  constructor
  · intro h
    rcases le_or_lt p 0 with h0 | h0
    · rw [priceTier_of_nonpos h0] at h; exact absurd h (by simp)
    rcases le_or_lt p 50 with h50 | h50
    · exact ⟨h0, h50⟩
    rcases le_or_lt p 200 with h200 | h200
    · rw [priceTier_of_standard h50 h200] at h; exact absurd h (by simp)
    rcases le_or_lt p 500 with h500 | h500
    · rw [priceTier_of_premium h200 h500] at h; exact absurd h (by simp)
    · rw [priceTier_of_luxury h500] at h; exact absurd h (by simp)
  · rintro ⟨h1, h2⟩; exact priceTier_of_budget h1 h2

lemma priceTier_eq_standard (p : Rat) : priceTier p = some "Standard" ↔ 50 < p ∧ p ≤ 200 := by
  constructor
  · intro h
    rcases le_or_lt p 0 with h0 | h0
    · rw [priceTier_of_nonpos h0] at h; exact absurd h (by simp)
    rcases le_or_lt p 50 with h50 | h50
    · rw [priceTier_of_budget h0 h50] at h; exact absurd h (by simp)
    rcases le_or_lt p 200 with h200 | h200
    · exact ⟨h50, h200⟩
    rcases le_or_lt p 500 with h500 | h500
    · rw [priceTier_of_premium h200 h500] at h; exact absurd h (by simp)
    · rw [priceTier_of_luxury h500] at h; exact absurd h (by simp)
  · rintro ⟨h1, h2⟩; exact priceTier_of_standard h1 h2

lemma priceTier_eq_premium (p : Rat) : priceTier p = some "Premium" ↔ 200 < p ∧ p ≤ 500 := by
  constructor
  · intro h
    rcases le_or_lt p 0 with h0 | h0
    · rw [priceTier_of_nonpos h0] at h; exact absurd h (by simp)
    rcases le_or_lt p 50 with h50 | h50
    · rw [priceTier_of_budget h0 h50] at h; exact absurd h (by simp)
    rcases le_or_lt p 200 with h200 | h200
    · rw [priceTier_of_standard h50 h200] at h; exact absurd h (by simp)
    rcases le_or_lt p 500 with h500 | h500
    · exact ⟨h200, h500⟩
    · rw [priceTier_of_luxury h500] at h; exact absurd h (by simp)
  · rintro ⟨h1, h2⟩; exact priceTier_of_premium h1 h2

lemma priceTier_eq_luxury (p : Rat) : priceTier p = some "Luxury" ↔ 500 < p := by
  constructor
  · intro h
    rcases le_or_lt p 0 with h0 | h0
    · rw [priceTier_of_nonpos h0] at h; exact absurd h (by simp)
    rcases le_or_lt p 50 with h50 | h50
    · rw [priceTier_of_budget h0 h50] at h; exact absurd h (by simp)
    rcases le_or_lt p 200 with h200 | h200
    · rw [priceTier_of_standard h50 h200] at h; exact absurd h (by simp)
    rcases le_or_lt p 500 with h500 | h500
    · rw [priceTier_of_premium h200 h500] at h; exact absurd h (by simp)
    · exact h500
  · intro h1; exact priceTier_of_luxury h1

lemma revenueCategory_of_nonpos {a : Rat} (h : a ≤ 0) : revenueCategory a = none := by
  simp only [revenueCategory, pdCut, ltEdge, leEdge]
  rw [if_neg (by rintro ⟨ha, _⟩; linarith), if_neg (by rintro ⟨ha, _⟩; linarith),
    if_neg (by rintro ⟨ha, _⟩; linarith), if_neg (by rintro ⟨ha, _⟩; linarith)]

lemma check_unique_passed_iff (df : Table) (cols : List String) :
    (check_unique_columns df cols).passed = true ↔
      ∀ c ∈ cols, ∀ col, findCol df c = some col → dupCount col.cells = 0 := by
  simp only [check_unique_columns, List.isEmpty_iff, List.filterMap_eq_nil_iff]
  constructor
  · intro h c hc col hcol
    have hfc := h c hc
    rw [hcol] at hfc
    by_contra hne
    simp [Nat.pos_of_ne_zero hne] at hfc
  · intro h c hc
    cases hcol : findCol df c with
    | none => simp
    | some col => simp [h c hc col hcol]

lemma check_numeric_ranges_passed_iff (df : Table) (ranges : List (String × NumRange)) :
    (check_numeric_ranges df ranges).passed = true ↔
      ∀ cr ∈ ranges, ∀ col, findCol df cr.1 = some col →
        belowCount col.cells cr.2.lo = 0 ∧ aboveCount col.cells cr.2.hi = 0 := by
  simp only [check_numeric_ranges, List.isEmpty_iff, List.filterMap_eq_nil_iff]
  constructor
  · intro h cr hcr col hcol
    have hfc := h cr hcr
    rw [hcol] at hfc
    constructor
    · by_contra hne
      simp [Nat.pos_of_ne_zero hne] at hfc
    · by_contra hne
      simp [Nat.pos_of_ne_zero hne] at hfc
  · intro h cr hcr
    cases hcol : findCol df cr.1 with
    | none => simp
    | some col => simp [(h cr hcr col hcol).1, (h cr hcr col hcol).2]

/-- Whether a details payload records no issue. -/
def detailsEmpty : Details → Bool
  | .missingCols l => l.isEmpty
  | .nullCounts l => l.isEmpty
  | .outOfRange l => l.isEmpty
  | .dupCounts l => l.isEmpty
  | .issues l => l.isEmpty

/-- The columns whose cell values a given non-required check of a given
entity type examines: the configured not-null, range and unique columns, the
dtype columns of the sales type check, and the columns each custom business
check reads. -/
def checkValueCols : String → String → List String
  | "sales", "not_null_columns" => ["sale_id", "product_id", "customer_id", "sale_date"]
  | "sales", "numeric_ranges" => ["quantity", "amount"]
  | "sales", "unique_columns" => ["sale_id"]
  | "sales", "data_types" => ["sale_date", "quantity", "amount", "price_per_unit"]
  | "sales", "custom_checks" => ["quantity", "amount", "sale_date"]
  | "products", "not_null_columns" => ["product_id", "product_name"]
  | "products", "numeric_ranges" => ["price"]
  | "products", "unique_columns" => ["product_id"]
  | "products", "custom_checks" => ["price"]
  | "customers", "not_null_columns" => ["customer_id", "customer_name"]
  | "customers", "unique_columns" => ["customer_id", "email"]
  | "customers", "custom_checks" => ["email"]
  | _, _ => []

lemma rulesFor_eq_none (name : String) (h : name ∉ (["sales", "products", "customers"] : List String)) :
    rulesFor name = none := by
  unfold rulesFor
  split <;> simp_all

lemma check_not_null_absent (df : Table) (cols : List String)
    (h : ∀ c ∈ cols, findCol df c = none) :
    check_not_null df cols = ⟨true, .nullCounts []⟩ := by
  have hnil : (cols.filterMap (fun c =>
      match findCol df c with
      | none => none
      | some col =>
          let n := nullCount col.cells
          if n > 0 then some (c, n) else none)) = [] :=
    List.filterMap_eq_nil_iff.mpr (fun c hc => by rw [h c hc])
  simp [check_not_null, hnil]

lemma check_numeric_ranges_absent (df : Table) (ranges : List (String × NumRange))
    (h : ∀ cr ∈ ranges, findCol df cr.1 = none) :
    check_numeric_ranges df ranges = ⟨true, .outOfRange []⟩ := by
  simp only [check_numeric_ranges, CheckResult.mk.injEq, Details.outOfRange.injEq,
    List.isEmpty_iff, List.filterMap_eq_nil_iff]
  constructor
  · intro cr hcr
    rw [h cr hcr]
  · intro cr hcr
    rw [h cr hcr]

lemma check_unique_columns_absent (df : Table) (cols : List String)
    (h : ∀ c ∈ cols, findCol df c = none) :
    check_unique_columns df cols = ⟨true, .dupCounts []⟩ := by
  have hnil : (cols.filterMap (fun c =>
      match findCol df c with
      | none => none
      | some col =>
          let n := dupCount col.cells
          if n > 0 then some (c, n) else none)) = [] :=
    List.filterMap_eq_nil_iff.mpr (fun c hc => by rw [h c hc])
  simp [check_unique_columns, hnil]

lemma check_data_types_sales_absent (df : Table)
    (hd : findCol df "sale_date" = none) (hq : findCol df "quantity" = none)
    (ha : findCol df "amount" = none) (hp : findCol df "price_per_unit" = none) :
    check_data_types df "sales" = ⟨true, .issues []⟩ := by
  simp [check_data_types, hd, hq, ha, hp]

lemma check_data_types_non_sales (df : Table) (table_name : String)
    (h : table_name ≠ "sales") :
    check_data_types df table_name = ⟨true, .issues []⟩ := by
  simp [check_data_types, h]

lemma run_custom_checks_sales_absent (df : Table) (now : Int)
    (hq : findCol df "quantity" = none) (hd : findCol df "sale_date" = none) :
    run_custom_checks df "sales" now = ⟨true, .issues []⟩ := by
  simp [run_custom_checks, hq, hd]

lemma run_custom_checks_products_absent (df : Table) (now : Int)
    (hp : findCol df "price" = none) :
    run_custom_checks df "products" now = ⟨true, .issues []⟩ := by
  simp [run_custom_checks, hp]

lemma run_custom_checks_customers_absent (df : Table) (now : Int)
    (he : findCol df "email" = none) :
    run_custom_checks df "customers" now = ⟨true, .issues []⟩ := by
  simp [run_custom_checks, he]

/-- The per-sales-row value of the fact table when both dimension key sets are
duplicate-free: join srow with the unique matching product and customer rows,
when they exist. -/
def factRowOf (products : List ProductRowT) (customers : List CustomerRowT)
    (srow : SalesRowT) : FactRow :=
  let x1 : SalesProd :=
    (products.find? (fun p => decide (p.product_id = srow.product_id))).elim
      ⟨srow, none, none⟩ (fun p => ⟨srow, some p.category, p.price_tier⟩)
  let x2 : SalesProdCust :=
    (customers.find? (fun c => decide (c.customer_id = x1.s.customer_id))).elim
      ⟨x1.s, x1.category, x1.price_tier, none, none⟩
      (fun c => ⟨x1.s, x1.category, x1.price_tier, some c.region, some c.customer_segment⟩)
  ⟨x2.s, x2.category, x2.price_tier, x2.region, x2.customer_segment,
    revenueCategory x2.s.amount, dateKey x2.s.sale_date⟩

lemma create_fact_table_eq_map (sales : List SalesRowT) (products : List ProductRowT)
    (customers : List CustomerRowT)
    (hp : (products.map (fun p => p.product_id)).Nodup)
    (hc : (customers.map (fun c => c.customer_id)).Nodup) :
    create_fact_table sales products customers = sales.map (factRowOf products customers) := by
  simp only [create_fact_table]
  rw [leftMerge_of_nodup _ _ _ _ _ _ hp, leftMerge_of_nodup _ _ _ _ _ _ hc,
    List.map_map, List.map_map]
  apply List.map_congr_left
  intro srow _
  rfl

/-! ## Claim theorems -/

/-- Claim C5: for every input table and every entity-type name with no
configured rule set (any name other than sales, products, customers),
validate_data returns the empty result mapping (and, being a total function,
does not raise). -/
theorem validate_unknown_entity_empty (df : Table) (now : Int) (name : String)
    (h : name ∉ (["sales", "products", "customers"] : List String)) :
    validate_data df name now = [] := by
  simp [validate_data, rulesFor_eq_none name h]

/-- Witness for C5 at a concrete unknown entity type. -/
theorem validate_unknown_entity_empty_witness :
    validate_data ⟨[]⟩ "orders" 0 = [] :=
  validate_unknown_entity_empty ⟨[]⟩ 0 "orders" (by decide)

/-- Claim C7: the uniqueness check passes exactly when every configured unique
column present in the table has duplicate count zero; the duplicate count is
the number of values repeating an earlier occurrence (count minus one per
repeated value group, i.e. column length minus number of distinct values); and
on values 1,1,2 the count is 1 and the check fails. -/
theorem uniqueness_check_spec :
    (∀ (df : Table) (cols : List String),
        ((check_unique_columns df cols).passed = true ↔
          ∀ c ∈ cols, ∀ col, findCol df c = some col → dupCount col.cells = 0)) ∧
    (∀ cells : List Cell, dupCount cells + cells.toFinset.card = cells.length) ∧
    dupCount [some (.vNum 1), some (.vNum 1), some (.vNum 2)] = 1 ∧
    (check_unique_columns
        ⟨[⟨"sale_id", .dtInt, [some (.vNum 1), some (.vNum 1), some (.vNum 2)]⟩]⟩
        ["sale_id"]).passed = false :=
  ⟨check_unique_passed_iff, dupCount_add_card, by decide, by decide⟩

/-- Claim C8: the numeric-range check passes exactly when every configured
range column present in the table has zero cells strictly below the minimum
and zero cells strictly above the maximum; a missing bound excludes nothing;
and on values -1, 5, 2000 against the range 0..1000 the below count is 1, the
above count is 1, and the check fails. -/
theorem numeric_range_check_spec :
    (∀ (df : Table) (ranges : List (String × NumRange)),
        ((check_numeric_ranges df ranges).passed = true ↔
          ∀ cr ∈ ranges, ∀ col, findCol df cr.1 = some col →
            belowCount col.cells cr.2.lo = 0 ∧ aboveCount col.cells cr.2.hi = 0)) ∧
    (∀ cells : List Cell, belowCount cells none = 0 ∧ aboveCount cells none = 0) ∧
    belowCount [some (.vNum (-1)), some (.vNum 5), some (.vNum 2000)] (some 0) = 1 ∧
    aboveCount [some (.vNum (-1)), some (.vNum 5), some (.vNum 2000)] (some 1000) = 1 ∧
    (check_numeric_ranges
        ⟨[⟨"quantity", .dtInt, [some (.vNum (-1)), some (.vNum 5), some (.vNum 2000)]⟩]⟩
        [("quantity", ⟨some 0, some 1000⟩)]).passed = false :=
  ⟨check_numeric_ranges_passed_iff, fun _ => ⟨rfl, rfl⟩, by decide, by decide, by decide⟩

/-- Claim C9: each entity transform is a per-row map: it preserves the row
count, and row i of the output is computed from row i of the input alone, so
no row is added, dropped or reordered; only columns are added or overwritten. -/
theorem transforms_preserve_rows (ss : List SalesRow) (ps : List ProductRow)
    (cs : List CustomerRow) (i : Nat) :
    (transform_sales_data ss).length = ss.length ∧
    (transform_product_data ps).length = ps.length ∧
    (transform_customer_data cs).length = cs.length ∧
    (transform_sales_data ss)[i]? = (ss[i]?).map transformSalesRow ∧
    (transform_product_data ps)[i]? = (ps[i]?).map transformProductRow ∧
    (transform_customer_data cs)[i]? = (cs[i]?).map transformCustomerRow :=
  ⟨by simp [transform_sales_data], by simp [transform_product_data],
   by simp [transform_customer_data], by simp [transform_sales_data],
   by simp [transform_product_data], by simp [transform_customer_data]⟩

/-- Claim C4: transform_product_data assigns the price tier by right-closed
bins: Budget exactly on (0, 50], Standard on (50, 200], Premium on (200, 500],
Luxury on (500, inf); boundary values fall in the lower-priced bucket. -/
theorem price_tier_bins (r : ProductRow) (p : Rat) (h : r.price = some p) :
    ((transformProductRow r).price_tier = some "Budget" ↔ 0 < p ∧ p ≤ 50) ∧
    ((transformProductRow r).price_tier = some "Standard" ↔ 50 < p ∧ p ≤ 200) ∧
    ((transformProductRow r).price_tier = some "Premium" ↔ 200 < p ∧ p ≤ 500) ∧
    ((transformProductRow r).price_tier = some "Luxury" ↔ 500 < p) := by
  have hpt : (transformProductRow r).price_tier = priceTier p := by
    simp [transformProductRow, h]
  rw [hpt]
  exact ⟨priceTier_eq_budget p, priceTier_eq_standard p, priceTier_eq_premium p,
    priceTier_eq_luxury p⟩

/-- Witness for C4: the boundary price 50 and the example price 30 both land
in the Budget tier. -/
theorem price_tier_bins_witness :
    (transformProductRow ⟨1, none, none, some 50⟩).price_tier = some "Budget" ∧
    (transformProductRow ⟨2, none, none, some 30⟩).price_tier = some "Budget" :=
  ⟨((price_tier_bins ⟨1, none, none, some 50⟩ 50 rfl).1).mpr (by norm_num),
   ((price_tier_bins ⟨2, none, none, some 30⟩ 30 rfl).1).mpr (by norm_num)⟩

/-- Claim C10: a product row with nonpositive price gets no price tier, and a
fact-table row with nonpositive amount gets no revenue category, because the
lowest bin of each bucketing is left-open at 0; both transforms are total. -/
theorem nonpositive_values_get_no_bucket :
    (∀ (r : ProductRow) (p : Rat), r.price = some p → p ≤ 0 →
        (transformProductRow r).price_tier = none) ∧
    (∀ (sales : List SalesRowT) (products : List ProductRowT)
        (customers : List CustomerRowT) (f : FactRow),
        f ∈ create_fact_table sales products customers →
        f.s.amount ≤ 0 → f.revenue_category = none) := by
  constructor
  · intro r p hp hle
    simp [transformProductRow, hp, priceTier_of_nonpos hle]
  · intro sales products customers f hf hle
    simp only [create_fact_table, List.mem_map] at hf
    rcases hf with ⟨x, _hx, rfl⟩
    exact revenueCategory_of_nonpos hle

/-- Concrete enriched sales row with amount 0 for the C10 witness. -/
def st0 : SalesRowT := ⟨1, 101, 201, 2, 0, ⟨2024, 1, 1, 0⟩, 2024, 1, 1, 0, false, none⟩

/-- The fact row produced from st0 with no matching dimensions. -/
def fact0 : FactRow := ⟨st0, none, none, none, none, none, 20240101⟩

/-- Witness for C10: price 0 gets no tier; a fact row with amount 0 gets no
revenue category. -/
theorem nonpositive_values_get_no_bucket_witness :
    (transformProductRow ⟨3, none, none, some 0⟩).price_tier = none ∧
    fact0.revenue_category = none :=
  ⟨nonpositive_values_get_no_bucket.1 ⟨3, none, none, some 0⟩ 0 rfl (by norm_num),
   nonpositive_values_get_no_bucket.2 [st0] [] [] fact0 (by decide) (by decide)⟩

/-- Claim C3 (evaluation at the failing input): for a customer email without an
at sign the transform leaves email_domain missing, but assigns
customer_segment Other, not Unknown, because the missing domain reaches
_categorize_customer as NaN, which is truthy in Python and slips past the
`if not email_domain` guard; a non-empty unmatched domain also yields Other. -/
theorem customer_segment_missing_domain_eval :
    transform_customer_data
        [⟨7, none, some "nodomain", none⟩, ⟨8, none, some "a@example.org", none⟩] =
      [⟨7, none, some "nodomain", "UNKNOWN", none, "Other"⟩,
       ⟨8, none, some "a@example.org", "UNKNOWN", some "example.org", "Other"⟩] := by
  decide

/-- Claim C1: run opens the run record, executes the three stages in order,
and finalizes exactly once: on full success as COMPLETED with the loaded row
count returning true; on the first failing stage it skips the remaining
stages and finalizes as FAILED with zero records and the captured non-empty
exception message, returning false. -/
theorem run_finalization {E T : Type} (ex : Except String E)
    (tr : E → Except String T) (ld : T → Except String Nat) :
    (∀ d t n, ex = .ok d → tr d = .ok t → ld t = .ok n →
        runPipeline ex tr ld =
          (true, [.start "STARTED", .stage "extract", .stage "transform", .stage "load",
                  .finalize "COMPLETED" n none])) ∧
    (∀ e, e ≠ "" →
      (ex = .error e →
          runPipeline ex tr ld =
            (false, [.start "STARTED", .stage "extract", .finalize "FAILED" 0 (some e)])) ∧
      (∀ d, ex = .ok d → tr d = .error e →
          runPipeline ex tr ld =
            (false, [.start "STARTED", .stage "extract", .stage "transform",
                     .finalize "FAILED" 0 (some e)])) ∧
      (∀ d t, ex = .ok d → tr d = .ok t → ld t = .error e →
          runPipeline ex tr ld =
            (false, [.start "STARTED", .stage "extract", .stage "transform", .stage "load",
                     .finalize "FAILED" 0 (some e)]))) ∧
    countFinalize (runPipeline ex tr ld).2 = 1 := by
  refine ⟨?_, ?_, ?_⟩
  · intro d t n hex htr hld
    simp [runPipeline, hex, htr, hld]
  · intro e _he
    refine ⟨?_, ?_, ?_⟩
    · intro hex
      simp [runPipeline, hex]
    · intro d hex htr
      simp [runPipeline, hex, htr]
    · intro d t hex htr hld
      simp [runPipeline, hex, htr, hld]
  · cases ex with
    | error e => rfl
    | ok d =>
        cases htr : tr d with
        | error e => simp [runPipeline, htr, countFinalize, List.countP, List.countP.go]
        | ok t =>
            cases hld : ld t with
            | error e => simp [runPipeline, htr, hld, countFinalize, List.countP, List.countP.go]
            | ok n => simp [runPipeline, htr, hld, countFinalize, List.countP, List.countP.go]

/-- Witness for C1: a concrete all-success run and a concrete run whose
extraction raises. -/
theorem run_finalization_witness :
    runPipeline (Except.ok 1 : Except String Nat)
        (fun d => (Except.ok d : Except String Nat)) (fun _ => Except.ok 5) =
      (true, [.start "STARTED", .stage "extract", .stage "transform", .stage "load",
              .finalize "COMPLETED" 5 none]) ∧
    runPipeline (Except.error "boom" : Except String Nat)
        (fun d => (Except.ok d : Except String Nat)) (fun _ => Except.ok 5) =
      (false, [.start "STARTED", .stage "extract", .finalize "FAILED" 0 (some "boom")]) :=
  ⟨(run_finalization (Except.ok 1) (fun d => Except.ok d) (fun _ => Except.ok 5)).1
      1 1 5 rfl rfl rfl,
   ((run_finalization (Except.error "boom") (fun d => (Except.ok d : Except String Nat))
      (fun _ => Except.ok 5)).2.1 "boom" (by decide)).1 rfl⟩

/-- Concrete enriched sales row for the C2 counterexample. -/
def cfSale : SalesRowT := ⟨1, 101, 201, 2, 100, ⟨2024, 1, 1, 0⟩, 2024, 1, 1, 0, false, some 50⟩

/-- Concrete enriched product row sharing product_id 101. -/
def cfProd : ProductRowT := ⟨101, some "Widget", "ELECTRONICS", some 40, some "Budget"⟩

/-- Counterexample to C2 as stated: with a duplicated product_id in the
products table, the left join multiplies the matching sales row, so the fact
table has 2 rows for a 1-row sales input. -/
theorem fact_table_duplicate_key_counterexample :
    (create_fact_table [cfSale] [cfProd, cfProd] []).length = 2 ∧
    ([cfSale] : List SalesRowT).length = 1 ∧
    (create_fact_table [cfSale] [cfProd, cfProd] []).length ≠
      ([cfSale] : List SalesRowT).length := by
  refine ⟨by decide, by decide, by decide⟩

/-- Claim C2 (amended): when the joined product_id values and customer_id
values are each duplicate-free, the fact table has exactly one row per input
sales row, in order, and a sales row whose key has no match keeps the joined
columns of that dimension empty. -/
theorem fact_table_preserves_rows_unique_keys (sales : List SalesRowT)
    (products : List ProductRowT) (customers : List CustomerRowT)
    (hp : (products.map (fun p => p.product_id)).Nodup)
    (hc : (customers.map (fun c => c.customer_id)).Nodup) :
    (create_fact_table sales products customers).length = sales.length ∧
    ∀ (i : Nat) (srow : SalesRowT) (frow : FactRow), sales[i]? = some srow →
      (create_fact_table sales products customers)[i]? = some frow →
      (srow.product_id ∉ products.map (fun p => p.product_id) →
          frow.category = none ∧ frow.price_tier = none) ∧
      (srow.customer_id ∉ customers.map (fun c => c.customer_id) →
          frow.region = none ∧ frow.customer_segment = none) := by
  have hmap := create_fact_table_eq_map sales products customers hp hc
  constructor
  · rw [hmap, List.length_map]
  · intro i srow frow hs hf
    rw [hmap, List.getElem?_map, hs, Option.map_some'] at hf
    have hfrow : frow = factRowOf products customers srow := (Option.some.injEq _ _).mp hf.symm
    subst hfrow
    constructor
    · intro hnp
      have hfind : products.find? (fun p => decide (p.product_id = srow.product_id)) = none := by
        rw [List.find?_eq_none]
        intro p hp2 hdec
        exact hnp (List.mem_map.mpr ⟨p, hp2, of_decide_eq_true hdec⟩)
      cases hfc : customers.find? (fun c => decide (c.customer_id = srow.customer_id)) <;>
        simp [factRowOf, hfind, hfc]
    · intro hnc
      have hfind : customers.find? (fun c => decide (c.customer_id = srow.customer_id)) = none := by
        rw [List.find?_eq_none]
        intro c hc2 hdec
        exact hnc (List.mem_map.mpr ⟨c, hc2, of_decide_eq_true hdec⟩)
      cases hfp : products.find? (fun p => decide (p.product_id = srow.product_id)) <;>
        simp [factRowOf, hfp, hfind]

/-- Witness for the amended C2: with unique keys, a concrete 1-row sales table
yields a 1-row fact table. -/
theorem fact_table_preserves_rows_unique_keys_witness :
    (create_fact_table [cfSale] [cfProd] []).length = ([cfSale] : List SalesRowT).length :=
  (fact_table_preserves_rows_unique_keys [cfSale] [cfProd] [] (by decide) (by decide)).1

/-- Counterexample to C6 as stated: on a table with no columns at all, the
required-columns check of the sales rule set reports passed = false and lists
the missing columns, rather than passing with no issue. -/
theorem absent_columns_required_check_fails :
    List.lookup "required_columns" (validate_data ⟨[]⟩ "sales" 0) =
      some ⟨false, .missingCols
        ["sale_id", "product_id", "customer_id", "quantity", "amount", "sale_date"]⟩ := by
  decide

/-- Claim C6 (amended): validate_data is a total function and every check
other than required_columns degrades to passed = true with an empty details
payload whenever the columns that check itself examines are absent from the
table, regardless of which other columns are present; only the
required-columns check flags absent columns as a failure. -/
theorem value_checks_pass_when_columns_absent (df : Table) (name : String) (now : Int) :
    ∀ r ∈ validate_data df name now, r.1 ≠ "required_columns" →
      (∀ c ∈ checkValueCols name r.1, findCol df c = none) →
      r.2.passed = true ∧ detailsEmpty r.2.details = true := by
  intro r hr hne hcols
  by_cases h1 : name = "sales"
  · subst h1
    simp only [validate_data, rulesFor, List.mem_cons, List.not_mem_nil, or_false] at hr
    rcases hr with rfl | rfl | rfl | rfl | rfl | rfl
    · exact absurd rfl hne
    · rw [check_not_null_absent df ["sale_id", "product_id", "customer_id", "sale_date"]
        (by intro c hc; fin_cases hc <;> exact hcols _ (by simp [checkValueCols]))]
      exact ⟨rfl, rfl⟩
    · rw [check_numeric_ranges_absent df
        [("quantity", ⟨some 0, some 1000⟩), ("amount", ⟨some 0, some 1000000⟩)]
        (by intro cr hcr; fin_cases hcr <;> exact hcols _ (by simp [checkValueCols]))]
      exact ⟨rfl, rfl⟩
    · rw [check_unique_columns_absent df ["sale_id"]
        (by intro c hc; fin_cases hc <;> exact hcols _ (by simp [checkValueCols]))]
      exact ⟨rfl, rfl⟩
    · rw [check_data_types_sales_absent df (hcols _ (by simp [checkValueCols])) (hcols _ (by simp [checkValueCols]))
        (hcols _ (by simp [checkValueCols])) (hcols _ (by simp [checkValueCols]))]
      exact ⟨rfl, rfl⟩
    · rw [run_custom_checks_sales_absent df now (hcols _ (by simp [checkValueCols])) (hcols _ (by simp [checkValueCols]))]
      exact ⟨rfl, rfl⟩
  by_cases h2 : name = "products"
  · subst h2
    simp only [validate_data, rulesFor, List.mem_cons, List.not_mem_nil, or_false] at hr
    rcases hr with rfl | rfl | rfl | rfl | rfl | rfl
    · exact absurd rfl hne
    · rw [check_not_null_absent df ["product_id", "product_name"]
        (by intro c hc; fin_cases hc <;> exact hcols _ (by simp [checkValueCols]))]
      exact ⟨rfl, rfl⟩
    · rw [check_numeric_ranges_absent df [("price", ⟨some 0, some 10000⟩)]
        (by intro cr hcr; fin_cases hcr <;> exact hcols _ (by simp [checkValueCols]))]
      exact ⟨rfl, rfl⟩
    · rw [check_unique_columns_absent df ["product_id"]
        (by intro c hc; fin_cases hc <;> exact hcols _ (by simp [checkValueCols]))]
      exact ⟨rfl, rfl⟩
    · rw [check_data_types_non_sales df "products" (by decide)]
      exact ⟨rfl, rfl⟩
    · rw [run_custom_checks_products_absent df now (hcols _ (by simp [checkValueCols]))]
      exact ⟨rfl, rfl⟩
  by_cases h3 : name = "customers"
  · subst h3
    simp only [validate_data, rulesFor, List.mem_cons, List.not_mem_nil, or_false] at hr
    rcases hr with rfl | rfl | rfl | rfl | rfl | rfl
    · exact absurd rfl hne
    · rw [check_not_null_absent df ["customer_id", "customer_name"]
        (by intro c hc; fin_cases hc <;> exact hcols _ (by simp [checkValueCols]))]
      exact ⟨rfl, rfl⟩
    · rw [check_numeric_ranges_absent df []
        (by intro cr hcr; exact absurd hcr (List.not_mem_nil cr))]
      exact ⟨rfl, rfl⟩
    · rw [check_unique_columns_absent df ["customer_id", "email"]
        (by intro c hc; fin_cases hc <;> exact hcols _ (by simp [checkValueCols]))]
      exact ⟨rfl, rfl⟩
    · rw [check_data_types_non_sales df "customers" (by decide)]
      exact ⟨rfl, rfl⟩
    · rw [run_custom_checks_customers_absent df now (hcols _ (by simp [checkValueCols]))]
      exact ⟨rfl, rfl⟩
  · have hempty : validate_data df name now = [] := by
      simp [validate_data, rulesFor_eq_none name (by simp [h1, h2, h3])]
    rw [hempty] at hr
    exact absurd hr (List.not_mem_nil r)

/-- A mixed-presence customers table: email is present while customer_id and
customer_name are absent. -/
def dfMixed : Table := ⟨[⟨"email", .dtObject, [some (.vStr "x")]⟩]⟩

/-- Witness for the amended C6 on a mixed-presence table: the not-null check
passes with empty details because the columns it examines are absent, even
though another column (email) is present. -/
theorem value_checks_pass_when_columns_absent_witness :
    (check_not_null dfMixed ["customer_id", "customer_name"]).passed = true ∧
    detailsEmpty (check_not_null dfMixed ["customer_id", "customer_name"]).details = true :=
  value_checks_pass_when_columns_absent dfMixed "customers" 0
    ("not_null_columns", check_not_null dfMixed ["customer_id", "customer_name"])
    (by decide) (by decide) (by decide)
